import Mathlib

/-!
Verification of the deployment-rollout orchestration core of
`src/submission/cicd/deploy.py`.

The Python source is shallowly embedded below.  Pure string manipulation is
modelled over `List Char` (Python `in`, `str.strip`, `str.lower`, `int(...)`),
the time-bounded polling loop of `health_check` is modelled as a
fuel-indexed structural recursion (each loop iteration advances the clock by
at least the 10-second poll interval, so `timeout.toNat` units of fuel always
suffice; this is proved as `healthCheckLoop_timeout_at_deadline` style
adequacy facts below), and the effectful functions (`run`, `deploy`,
`rollback`, `main`) are modelled as functions from an explicit environment
(command results, prompt answers, query oracles) to an event trace plus an
outcome (normal return, `sys.exit(code)`, or an uncaught Python exception).
-/

/-! ## Python string primitives -/

/-- Boolean list-prefix test (used to implement the Python `in` operator). -/
def listPrefixOf : List Char → List Char → Bool
  | [], _ => true
  | _ :: _, [] => false
  | a :: as, b :: bs => a == b && listPrefixOf as bs

/-- Boolean list-infix test: does `needle` occur contiguously in the list? -/
def listInfixOf (needle : List Char) : List Char → Bool
  | [] => listPrefixOf needle []
  | c :: rest => listPrefixOf needle (c :: rest) || listInfixOf needle rest

/-- The Python expression `needle in haystack` on strings: contiguous substring test. -/
def pyIn (needle haystack : String) : Bool := listInfixOf needle.data haystack.data

/-- Python `str.strip()` (default whitespace stripping from both ends). -/
def pyStrip (s : String) : String :=
  String.mk (((s.data.dropWhile Char.isWhitespace).reverse.dropWhile Char.isWhitespace).reverse)

/-- Python `str.lower()` (ASCII case folding suffices for the y/N prompt). -/
def pyLower (s : String) : String := String.mk (s.data.map Char.toLower)

/-- Digit-string accumulator for `pyInt`. -/
def parseDigitsAux : List Char → Nat → Option Nat
  | [], acc => some acc
  | c :: cs, acc => if c.isDigit then parseDigitsAux cs (acc * 10 + (c.toNat - 48)) else none

/-- Parse a non-empty all-digit character list as a natural number. -/
def parseDigits : List Char → Option Nat
  | [] => none
  | l => parseDigitsAux l 0

/-- Python `int(s)` on a plain (optionally negated) decimal string; `none`
models `ValueError`.  The source only applies it to the numeric revision
annotation read back from the platform. -/
def pyInt (s : String) : Option Int :=
  match s.data with
  | '-' :: rest => (parseDigits rest).map (fun n => -(n : Int))
  | l => (parseDigits l).map (fun n => (n : Int))

/-! ## Module constants (deploy.py lines 27-32) -/

def NAMESPACE : String := "video-analytics"

def DEPLOYMENT_NAME : String := "video-processor"

def ECR_REGISTRY : String := "123456789012.dkr.ecr.us-east-1.amazonaws.com"

def IMAGE_NAME : String := ECR_REGISTRY ++ "/video-processor"

/-- `HEALTH_CHECK_INTERVAL = 10` — seconds between health check polls. -/
def HEALTH_CHECK_INTERVAL : Int := 10

/-- The canonical success phrase matched at deploy.py line 173. -/
def successPhrase : String := "successfully rolled out"

/-- `kubectl(*args)` command construction (deploy.py line 65): the argument
list handed to `run`, namespaced to `video-analytics`. -/
def kubectl (args : List String) : List String := ["kubectl", "-n", NAMESPACE] ++ args

/-- `confirm` (deploy.py lines 68-73) proceeds iff the stripped, lowered
answer equals `"y"`; otherwise it calls `sys.exit(0)`. -/
def confirmYes (answer : String) : Bool := pyLower (pyStrip answer) == "y"

/-! ## The health monitor (deploy.py lines 145-183)

`health_check(environment, timeout)` polls two kubectl queries per attempt
inside `try/except` and sleeps `HEALTH_CHECK_INTERVAL` between attempts.
External behaviour per attempt `a` is supplied by an oracle:
`rolloutStatus a` is the (stripped) output of the `rollout status` query,
`none` modelling an exception raised by that query (caught by the
`except` at line 177); `ready a` likewise for the replica-count query
(if it raises, the success test at line 173 is skipped because the
exception aborts the `try` body before the `if`); `latency a` is the wall
time the queries of the attempt consume. -/

structure HCOracle where
  rolloutStatus : Nat → Option String
  ready : Nat → Option String
  latency : Nat → Nat

/-- One-for-one model of the `while time.time() < deadline` loop.  The fuel
argument is an upper bound on the number of iterations: each iteration moves
the clock forward by `latency + 10 ≥ 10`, so `(deadline - t).toNat` fuel
(a fortiori `timeout.toNat` at the entry point) is always enough; with the
deadline reached the result is `(false, t, attempt)` for every fuel value,
so exhausted fuel coincides with the normal exit of the loop.  Result components:
verdict (`True` = healthy), the clock when the function returns, and the
number of attempts made. -/
def healthCheckLoop (o : HCOracle) (deadline : Int) : Nat → Int → Nat → Bool × Int × Nat
  | 0, t, attempt => (false, t, attempt)
  | fuel + 1, t, attempt =>
    if t < deadline then
      match o.rolloutStatus (attempt + 1) with
      | none =>
          healthCheckLoop o deadline fuel
            (t + (o.latency (attempt + 1) : Int) + HEALTH_CHECK_INTERVAL) (attempt + 1)
      | some st =>
        match o.ready (attempt + 1) with
        | none =>
            healthCheckLoop o deadline fuel
              (t + (o.latency (attempt + 1) : Int) + HEALTH_CHECK_INTERVAL) (attempt + 1)
        | some _ =>
            if pyIn successPhrase st then
              (true, t + (o.latency (attempt + 1) : Int), attempt + 1)
            else
              healthCheckLoop o deadline fuel
                (t + (o.latency (attempt + 1) : Int) + HEALTH_CHECK_INTERVAL) (attempt + 1)
    else (false, t, attempt)

/-- `health_check` (deploy.py lines 145-183): `deadline = time.time() + timeout`
with `start` the value of `time.time()` at entry. -/
def health_check (o : HCOracle) (start timeout : Int) : Bool × Int × Nat :=
  healthCheckLoop o (start + timeout) timeout.toNat start 0

/-- Did attempt `a` succeed, i.e. did its rollout-status query return text
containing the success phrase while its ready-replicas query also returned
(so that control actually reached the `if` at line 173)? -/
def attemptSuccess (o : HCOracle) (a : Nat) : Bool :=
  match o.rolloutStatus a with
  | none => false
  | some st => pyIn successPhrase st && (o.ready a).isSome

/-- Did any of attempts `1..k` succeed in the sense of `attemptSuccess`? -/
def anyUpTo (o : HCOracle) : Nat → Bool
  | 0 => false
  | k + 1 => anyUpTo o k || attemptSuccess o (k + 1)

/-! ## Effectful functions: traces and outcomes -/

/-- Uncaught Python exceptions relevant to deploy.py. -/
inductive PyErr where
  | typeError : String → PyErr
  | nameError : String → PyErr
  | calledProcessError : PyErr
deriving DecidableEq

/-- How a modelled call finishes: normal return, `sys.exit(code)`, or an
uncaught exception (which makes the interpreter exit with status 1). -/
inductive Outcome where
  | ok : Outcome
  | exited : Nat → Outcome
  | error : PyErr → Outcome
deriving DecidableEq

def Outcome.isOk : Outcome → Bool
  | .ok => true
  | .exited _ => false
  | .error _ => false

/-- Observable events of a run: a command logged by `run` (always), a
command actually handed to `subprocess.run` (live mode only), the
interactive production prompt, and entries into `health_check` /
`rollback`.  `rollbackCall` is only ever emitted by the call at deploy.py
line 236; no embedded execution path reaches that line (see
`deploy` below), but the constructor is needed to state that fact. -/
inductive Event where
  | cmdLogged : List String → Event
  | cmdExecuted : List String → Event
  | confirmPrompt : Event
  | healthCheckCall : Int → Event
  | rollbackCall : Option Int → Event
deriving DecidableEq

def isCmdLogged : Event → Bool
  | .cmdLogged _ => true
  | .cmdExecuted _ => false
  | .confirmPrompt => false
  | .healthCheckCall _ => false
  | .rollbackCall _ => false

def isExecuted : Event → Bool
  | .cmdLogged _ => false
  | .cmdExecuted _ => true
  | .confirmPrompt => false
  | .healthCheckCall _ => false
  | .rollbackCall _ => false

def isHealthCall : Event → Bool
  | .cmdLogged _ => false
  | .cmdExecuted _ => false
  | .confirmPrompt => false
  | .healthCheckCall _ => true
  | .rollbackCall _ => false

def isRollbackCall : Event → Bool
  | .cmdLogged _ => false
  | .cmdExecuted _ => false
  | .confirmPrompt => false
  | .healthCheckCall _ => false
  | .rollbackCall _ => true

/-- The sentinel `run` returns in dry-run mode (deploy.py line 56). -/
def dryRunSentinel : String := "[dry-run: no output]"

/-- `run(cmd, dry_run, check)` (deploy.py lines 49-60): log the command;
in dry-run mode return the sentinel without executing; in live mode invoke
the platform, whose response is supplied as `liveResult` (`none` models
`subprocess.run` raising, e.g. `CalledProcessError` under `check=True`). -/
def run (liveResult : Option String) (cmd : List String) (dry_run : Bool) :
    List Event × Except PyErr String :=
  if dry_run then ([.cmdLogged cmd], .ok dryRunSentinel)
  else
    ([.cmdLogged cmd, .cmdExecuted cmd],
      match liveResult with
      | some out => .ok out
      | none => .error .calledProcessError)

/-- External environment of one `deploy` call: the answer typed at the
production prompt, and the platform responses to the three kubectl
commands `deploy` issues (`none` = the call raises). -/
structure DeployWorld where
  confirmAnswer : String
  snapshotResult : Option String
  setImageResult : Option String
  annotateResult : Option String
  timestamp : String

/-- The revision-snapshot query of deploy.py lines 201-205. -/
def historyCmd : List String :=
  kubectl ["rollout", "history", "deployment/video-processor",
    "--output=jsonpath=\x7b.metadata.annotations.deployment\\.kubernetes\\.io/revision\x7d"]

/-- The image-update command of deploy.py lines 211-216. -/
def setImageCmd (image : String) : List String :=
  kubectl ["set", "image", "deployment/video-processor", "video-processor=" ++ image]

/-- The metadata-annotation command of deploy.py lines 220-227. -/
def annotateCmd (timestamp image_tag environment : String) : List String :=
  kubectl ["annotate", "deployment", "video-processor",
    "deployment.vlt.io/deployed-at=" ++ timestamp,
    "deployment.vlt.io/image-tag=" ++ image_tag,
    "deployment.vlt.io/environment=" ++ environment,
    "--overwrite"]

/-- Body of `deploy` after the production gate (deploy.py lines 197-239).
The snapshot query is live-only and wrapped in `try/except` with
`check=False`, so it contributes events but never aborts.  After both the
image update and the annotation succeed, a live run evaluates the
expression `health_check(environment, timeout=timeout)` at line 234 —
but `timeout` is not a parameter of `deploy` and not otherwise in scope, so
Python raises `NameError` there before `health_check` is entered; the
auto-rollback call at line 236 is therefore unreachable. -/
def deployBody (w : DeployWorld) (environment image_tag : String) (dry_run : Bool) :
    List Event × Outcome :=
  let snapEv : List Event :=
    if dry_run then [] else [.cmdLogged historyCmd, .cmdExecuted historyCmd]
  match run w.setImageResult (setImageCmd (IMAGE_NAME ++ ":" ++ image_tag)) dry_run with
  | (ev1, .error e) => (snapEv ++ ev1, .error e)
  | (ev1, .ok _) =>
    match run w.annotateResult (annotateCmd w.timestamp image_tag environment) dry_run with
    | (ev2, .error e) => (snapEv ++ ev1 ++ ev2, .error e)
    | (ev2, .ok _) =>
      if dry_run then (snapEv ++ ev1 ++ ev2, .ok)
      else (snapEv ++ ev1 ++ ev2, .error (.nameError "timeout"))

/-- `deploy(environment, image_tag, dry_run)` (deploy.py lines 186-239).
The production gate (lines 194-195) prompts and calls `sys.exit(0)` when
the confirmation is declined. -/
def deploy (w : DeployWorld) (environment image_tag : String) (dry_run : Bool) :
    List Event × Outcome :=
  if environment == "production" && !dry_run then
    if confirmYes w.confirmAnswer then
      let r := deployBody w environment image_tag dry_run
      (.confirmPrompt :: r.1, r.2)
    else ([.confirmPrompt], .exited 0)
  else deployBody w environment image_tag dry_run

/-- The expression `int(current_revision) if current_revision else None`
(deploy.py line 236).  `none` on the left models Python `None`; an empty
string is falsy so it also yields `None`; `pyInt` returning `none` models
`int` raising `ValueError`, which cannot happen for the numeric revision
annotation this expression is applied to. -/
def autoRollbackRevision : Option String → Option Int
  | none => none
  | some s => if s == "" then none else pyInt s

/-- The `rollout undo` command built by `rollback` (deploy.py lines 245-257).
The Python guard is `if revision:`, under which both `None` and the integer
`0` are falsy, so both select the no-`--to-revision` form. -/
def undoCmd (revision : Option Int) : List String :=
  match revision with
  | some r =>
    if r != 0 then
      kubectl ["rollout", "undo", "deployment/video-processor", "--to-revision=" ++ toString r]
    else kubectl ["rollout", "undo", "deployment/video-processor"]
  | none => kubectl ["rollout", "undo", "deployment/video-processor"]

/-- External environment of one `rollback` call: the platform response to
the undo command (`none` = `CalledProcessError` under the default
`check=True`, which `rollback` does not catch), plus the oracle and start
time for the 180-second re-check. -/
structure RollbackWorld where
  undoResult : Option String
  hc : HCOracle
  start : Int

/-- `rollback(environment, revision)` (deploy.py lines 242-264): issue the
undo command; on success re-check health with the fixed 180-second budget
and `sys.exit(2)` if that re-check fails. -/
def rollback (w : RollbackWorld) (environment : String) (revision : Option Int) :
    List Event × Outcome :=
  match run w.undoResult (undoCmd revision) false with
  | (ev, .error e) => (ev, .error e)
  | (ev, .ok _) =>
    if (health_check w.hc w.start 180).1 then (ev ++ [.healthCheckCall 180], .ok)
    else (ev ++ [.healthCheckCall 180], .exited 2)

/-! ## The CLI wiring in `main` (deploy.py lines 293-311) -/

/-- The parameters of the `deploy` function (deploy.py line 186). -/
def deployFnParams : List String := ["environment", "image_tag", "dry_run"]

/-- The keyword arguments `main` passes to `deploy` (deploy.py lines 298-304). -/
def mainDeployKwargs : List String := ["environment", "image_tag", "dry_run", "timeout"]

/-- The `deploy` branch of `main`: Python binds keyword arguments to the
parameter list of the callee before running the body and raises `TypeError` for
an unexpected keyword.  `main` passes `timeout=args.timeout`, which
`deploy` does not accept. -/
def mainDeploy (w : DeployWorld) (environment image_tag : String) (dry_run : Bool)
    (timeout : Int) : List Event × Outcome :=
  if mainDeployKwargs.all (fun k => deployFnParams.contains k) then
    deploy w environment image_tag dry_run
  else ([], .error (.typeError ("deploy() got an unexpected keyword argument: timeout with value "
    ++ toString timeout)))

/-- The `rollback` branch of `main` (deploy.py lines 305-309); its keyword
arguments match the parameters of `rollback`, so the call binds normally. -/
def mainRollback (w : RollbackWorld) (environment : String) (revision : Option Int) :
    List Event × Outcome :=
  rollback w environment revision

/-- CPython process exit status for each way `main` can finish: normal
return is 0, `sys.exit(code)` is `code`, an uncaught exception prints a
traceback and exits with status 1. -/
def processExitCode : Outcome → Nat
  | .ok => 0
  | .exited n => n
  | .error _ => 1

/-! ## Concrete oracles and worlds used by witnesses and counterexamples -/

/-- Rollout never reports success, queries are instantaneous. -/
def oNever : HCOracle :=
  { rolloutStatus := fun _ => some "Waiting for deployment to finish"
    ready := fun _ => some "1/3"
    latency := fun _ => 0 }

/-- Same behaviour as `oNever`; separate definition for a separate claim. -/
def oNeverB : HCOracle :=
  { rolloutStatus := fun _ => some "Waiting for deployment spec update"
    ready := fun _ => some "0/3"
    latency := fun _ => 0 }

/-- Rollout reports success on the first attempt. -/
def oInstant : HCOracle :=
  { rolloutStatus := fun _ => some "deployment \"video-processor\" successfully rolled out"
    ready := fun _ => some "3/3"
    latency := fun _ => 0 }

/-- Rollout reports success on the first attempt, but the ready-replicas
query raises on every attempt. -/
def oPhraseReadyRaise : HCOracle :=
  { rolloutStatus := fun _ => some "deployment \"video-processor\" successfully rolled out"
    ready := fun _ => none
    latency := fun _ => 0 }

/-- A world whose production prompt is answered `n`. -/
def wDeclined : DeployWorld :=
  { confirmAnswer := "n"
    snapshotResult := some "4"
    setImageResult := some ""
    annotateResult := some ""
    timestamp := "2026-10-12T00:00:00Z" }

/-- A rollback world whose undo command succeeds and whose re-check
succeeds immediately. -/
def wRollbackOk : RollbackWorld :=
  { undoResult := some "deployment.apps/video-processor rolled back"
    hc := oInstant
    start := 0 }

/-! ## Lemmas about the polling loop -/

theorem healthCheckLoop_done (o : HCOracle) (dl : Int) (fuel : Nat) (t : Int) (a0 : Nat)
    (ht : ¬t < dl) : healthCheckLoop o dl fuel t a0 = (false, t, a0) := by
  cases fuel <;> simp [healthCheckLoop, ht]

theorem healthCheckLoop_step_none (o : HCOracle) (dl : Int) (n : Nat) (t : Int) (a0 : Nat)
    (ht : t < dl) (hrs : o.rolloutStatus (a0 + 1) = none) :
    healthCheckLoop o dl (n + 1) t a0 =
      healthCheckLoop o dl n (t + (o.latency (a0 + 1) : Int) + HEALTH_CHECK_INTERVAL) (a0 + 1) := by
  simp [healthCheckLoop, ht, hrs]

theorem healthCheckLoop_step_skip (o : HCOracle) (dl : Int) (n : Nat) (t : Int) (a0 : Nat)
    (st : String) (ht : t < dl) (hrs : o.rolloutStatus (a0 + 1) = some st)
    (hrd : o.ready (a0 + 1) = none) :
    healthCheckLoop o dl (n + 1) t a0 =
      healthCheckLoop o dl n (t + (o.latency (a0 + 1) : Int) + HEALTH_CHECK_INTERVAL) (a0 + 1) := by
  simp [healthCheckLoop, ht, hrs, hrd]

theorem healthCheckLoop_step_fail (o : HCOracle) (dl : Int) (n : Nat) (t : Int) (a0 : Nat)
    (st rd : String) (ht : t < dl) (hrs : o.rolloutStatus (a0 + 1) = some st)
    (hrd : o.ready (a0 + 1) = some rd) (hpy : pyIn successPhrase st = false) :
    healthCheckLoop o dl (n + 1) t a0 =
      healthCheckLoop o dl n (t + (o.latency (a0 + 1) : Int) + HEALTH_CHECK_INTERVAL) (a0 + 1) := by
  simp [healthCheckLoop, ht, hrs, hrd, hpy]

theorem healthCheckLoop_step_success (o : HCOracle) (dl : Int) (n : Nat) (t : Int) (a0 : Nat)
    (st rd : String) (ht : t < dl) (hrs : o.rolloutStatus (a0 + 1) = some st)
    (hrd : o.ready (a0 + 1) = some rd) (hpy : pyIn successPhrase st = true) :
    healthCheckLoop o dl (n + 1) t a0 = (true, t + (o.latency (a0 + 1) : Int), a0 + 1) := by
  simp [healthCheckLoop, ht, hrs, hrd, hpy]

theorem healthCheckLoop_attempt_le (o : HCOracle) (dl : Int) :
    ∀ (fuel : Nat) (t : Int) (a0 : Nat), a0 ≤ (healthCheckLoop o dl fuel t a0).2.2 := by
  intro fuel
  induction fuel with
  | zero => intro t a0; simp [healthCheckLoop]
  | succ n ih =>
    intro t a0
    by_cases ht : t < dl
    · rcases hrs : o.rolloutStatus (a0 + 1) with _ | st
      · rw [healthCheckLoop_step_none o dl n t a0 ht hrs]
        exact le_trans (Nat.le_succ a0) (ih _ (a0 + 1))
      · rcases hrd : o.ready (a0 + 1) with _ | rd
        · rw [healthCheckLoop_step_skip o dl n t a0 st ht hrs hrd]
          exact le_trans (Nat.le_succ a0) (ih _ (a0 + 1))
        · rcases hpy : pyIn successPhrase st with _ | _
          · rw [healthCheckLoop_step_fail o dl n t a0 st rd ht hrs hrd hpy]
            exact le_trans (Nat.le_succ a0) (ih _ (a0 + 1))
          · rw [healthCheckLoop_step_success o dl n t a0 st rd ht hrs hrd hpy]
            exact Nat.le_succ a0
    · rw [healthCheckLoop_done o dl _ t a0 ht]

theorem healthCheckLoop_success_iff (o : HCOracle) (dl : Int) :
    ∀ (fuel : Nat) (t : Int) (a0 : Nat),
      ((healthCheckLoop o dl fuel t a0).1 = true ↔
        ∃ a, a0 < a ∧ a ≤ (healthCheckLoop o dl fuel t a0).2.2 ∧ attemptSuccess o a = true) := by
  intro fuel
  induction fuel with
  | zero =>
    intro t a0
    simp only [healthCheckLoop]
    constructor
    · intro h; exact absurd h (by simp)
    · rintro ⟨a, h1, h2, _⟩; omega
  | succ n ih =>
    intro t a0
    by_cases ht : t < dl
    · rcases hrs : o.rolloutStatus (a0 + 1) with _ | st
      · have hfail : attemptSuccess o (a0 + 1) = false := by simp [attemptSuccess, hrs]
        rw [healthCheckLoop_step_none o dl n t a0 ht hrs, ih]
        constructor
        · rintro ⟨a, h1, h2, h3⟩; exact ⟨a, by omega, h2, h3⟩
        · rintro ⟨a, h1, h2, h3⟩
          by_cases hcase : a = a0 + 1
          · rw [hcase, hfail] at h3; exact absurd h3 (by simp)
          · exact ⟨a, by omega, h2, h3⟩
      · rcases hrd : o.ready (a0 + 1) with _ | rd
        · have hfail : attemptSuccess o (a0 + 1) = false := by simp [attemptSuccess, hrs, hrd]
          rw [healthCheckLoop_step_skip o dl n t a0 st ht hrs hrd, ih]
          constructor
          · rintro ⟨a, h1, h2, h3⟩; exact ⟨a, by omega, h2, h3⟩
          · rintro ⟨a, h1, h2, h3⟩
            by_cases hcase : a = a0 + 1
            · rw [hcase, hfail] at h3; exact absurd h3 (by simp)
            · exact ⟨a, by omega, h2, h3⟩
        · rcases hpy : pyIn successPhrase st with _ | _
          · have hfail : attemptSuccess o (a0 + 1) = false := by
              simp [attemptSuccess, hrs, hrd, hpy]
            rw [healthCheckLoop_step_fail o dl n t a0 st rd ht hrs hrd hpy, ih]
            constructor
            · rintro ⟨a, h1, h2, h3⟩; exact ⟨a, by omega, h2, h3⟩
            · rintro ⟨a, h1, h2, h3⟩
              by_cases hcase : a = a0 + 1
              · rw [hcase, hfail] at h3; exact absurd h3 (by simp)
              · exact ⟨a, by omega, h2, h3⟩
          · have hsucc : attemptSuccess o (a0 + 1) = true := by
              simp [attemptSuccess, hrs, hrd, hpy]
            rw [healthCheckLoop_step_success o dl n t a0 st rd ht hrs hrd hpy]
            simp only [true_iff]
            exact ⟨a0 + 1, Nat.lt_succ_self a0, le_refl _, hsucc⟩
    · rw [healthCheckLoop_done o dl _ t a0 ht]
      constructor
      · intro h; exact absurd h (by simp)
      · rintro ⟨a, h1, h2, _⟩; simp at h2; omega

theorem anyUpTo_eq_true_iff (o : HCOracle) :
    ∀ k, anyUpTo o k = true ↔ ∃ a, 0 < a ∧ a ≤ k ∧ attemptSuccess o a = true := by
  intro k
  induction k with
  | zero =>
    simp only [anyUpTo]
    constructor
    · intro h; exact absurd h (by simp)
    · rintro ⟨a, h1, h2, _⟩; omega
  | succ n ih =>
    simp only [anyUpTo, Bool.or_eq_true, ih]
    constructor
    · rintro (⟨a, h1, h2, h3⟩ | h)
      · exact ⟨a, h1, by omega, h3⟩
      · exact ⟨n + 1, by omega, le_refl _, h⟩
    · rintro ⟨a, h1, h2, h3⟩
      by_cases hcase : a = n + 1
      · right; rw [← hcase]; exact h3
      · left; exact ⟨a, h1, by omega, h3⟩

theorem healthCheckLoop_ready_map (o : HCOracle) (g : Nat → String) (dl : Int) :
    ∀ (fuel : Nat) (t : Int) (a0 : Nat),
      healthCheckLoop { o with ready := fun a => (o.ready a).map (fun _ => g a) } dl fuel t a0 =
        healthCheckLoop o dl fuel t a0 := by
  intro fuel
  induction fuel with
  | zero => intro t a0; rfl
  | succ n ih =>
    intro t a0
    by_cases ht : t < dl
    · rcases hrs : o.rolloutStatus (a0 + 1) with _ | st
      · rw [healthCheckLoop_step_none
            { o with ready := fun a => (o.ready a).map (fun _ => g a) } dl n t a0 ht hrs,
          healthCheckLoop_step_none o dl n t a0 ht hrs]
        exact ih _ (a0 + 1)
      · rcases hrd : o.ready (a0 + 1) with _ | rd
        · have hrd2 : ({ o with ready := fun a => (o.ready a).map (fun _ => g a) } :
              HCOracle).ready (a0 + 1) = none := by simp [hrd]
          rw [healthCheckLoop_step_skip
              { o with ready := fun a => (o.ready a).map (fun _ => g a) } dl n t a0 st ht hrs hrd2,
            healthCheckLoop_step_skip o dl n t a0 st ht hrs hrd]
          exact ih _ (a0 + 1)
        · have hrd2 : ({ o with ready := fun a => (o.ready a).map (fun _ => g a) } :
              HCOracle).ready (a0 + 1) = some (g (a0 + 1)) := by simp [hrd]
          rcases hpy : pyIn successPhrase st with _ | _
          · rw [healthCheckLoop_step_fail
                { o with ready := fun a => (o.ready a).map (fun _ => g a) }
                dl n t a0 st (g (a0 + 1)) ht hrs hrd2 hpy,
              healthCheckLoop_step_fail o dl n t a0 st rd ht hrs hrd hpy]
            exact ih _ (a0 + 1)
          · rw [healthCheckLoop_step_success
                { o with ready := fun a => (o.ready a).map (fun _ => g a) }
                dl n t a0 st (g (a0 + 1)) ht hrs hrd2 hpy,
              healthCheckLoop_step_success o dl n t a0 st rd ht hrs hrd hpy]
    · rw [healthCheckLoop_done o dl _ t a0 ht, healthCheckLoop_done _ dl _ t a0 ht]

theorem healthCheckLoop_timeout_at_deadline (o : HCOracle) (dl : Int) :
    ∀ (fuel : Nat) (t : Int) (a0 : Nat), dl ≤ t + 10 * fuel →
      (healthCheckLoop o dl fuel t a0).1 = true ∨ dl ≤ (healthCheckLoop o dl fuel t a0).2.1 := by
  intro fuel
  induction fuel with
  | zero =>
    intro t a0 h
    right
    show dl ≤ t
    push_cast at h
    omega
  | succ n ih =>
    intro t a0 h
    by_cases ht : t < dl
    · rcases hrs : o.rolloutStatus (a0 + 1) with _ | st
      · rw [healthCheckLoop_step_none o dl n t a0 ht hrs]
        refine ih _ (a0 + 1) ?_
        show dl ≤ t + (o.latency (a0 + 1) : Int) + 10 + 10 * (n : Int)
        push_cast at h
        have hlat : (0 : Int) ≤ (o.latency (a0 + 1) : Int) := Int.natCast_nonneg _
        omega
      · rcases hrd : o.ready (a0 + 1) with _ | rd
        · rw [healthCheckLoop_step_skip o dl n t a0 st ht hrs hrd]
          refine ih _ (a0 + 1) ?_
          show dl ≤ t + (o.latency (a0 + 1) : Int) + 10 + 10 * (n : Int)
          push_cast at h
          have hlat : (0 : Int) ≤ (o.latency (a0 + 1) : Int) := Int.natCast_nonneg _
          omega
        · rcases hpy : pyIn successPhrase st with _ | _
          · rw [healthCheckLoop_step_fail o dl n t a0 st rd ht hrs hrd hpy]
            refine ih _ (a0 + 1) ?_
            show dl ≤ t + (o.latency (a0 + 1) : Int) + 10 + 10 * (n : Int)
            push_cast at h
            have hlat : (0 : Int) ≤ (o.latency (a0 + 1) : Int) := Int.natCast_nonneg _
            omega
          · rw [healthCheckLoop_step_success o dl n t a0 st rd ht hrs hrd hpy]
            left; rfl
    · rw [healthCheckLoop_done o dl _ t a0 ht]
      right
      show dl ≤ t
      omega

theorem healthCheckLoop_return_lt (o : HCOracle) (dl L : Int)
    (hL : ∀ a, (o.latency a : Int) ≤ L) :
    ∀ (fuel : Nat) (t : Int) (a0 : Nat), t < dl →
      (healthCheckLoop o dl fuel t a0).2.1 < dl + L + 10 := by
  have hL0 : (0 : Int) ≤ L := le_trans (Int.natCast_nonneg _) (hL 0)
  intro fuel
  induction fuel with
  | zero =>
    intro t a0 ht
    show t < dl + L + 10
    omega
  | succ n ih =>
    intro t a0 ht
    have hlat : (0 : Int) ≤ (o.latency (a0 + 1) : Int) := Int.natCast_nonneg _
    have hlatL : (o.latency (a0 + 1) : Int) ≤ L := hL (a0 + 1)
    rcases hrs : o.rolloutStatus (a0 + 1) with _ | st
    · rw [healthCheckLoop_step_none o dl n t a0 ht hrs]
      by_cases ht2 : t + (o.latency (a0 + 1) : Int) + HEALTH_CHECK_INTERVAL < dl
      · exact ih _ (a0 + 1) ht2
      · rw [healthCheckLoop_done o dl n _ (a0 + 1) ht2]
        show t + (o.latency (a0 + 1) : Int) + HEALTH_CHECK_INTERVAL < dl + L + 10
        simp only [HEALTH_CHECK_INTERVAL]
        omega
    · rcases hrd : o.ready (a0 + 1) with _ | rd
      · rw [healthCheckLoop_step_skip o dl n t a0 st ht hrs hrd]
        by_cases ht2 : t + (o.latency (a0 + 1) : Int) + HEALTH_CHECK_INTERVAL < dl
        · exact ih _ (a0 + 1) ht2
        · rw [healthCheckLoop_done o dl n _ (a0 + 1) ht2]
          show t + (o.latency (a0 + 1) : Int) + HEALTH_CHECK_INTERVAL < dl + L + 10
          simp only [HEALTH_CHECK_INTERVAL]
          omega
      · rcases hpy : pyIn successPhrase st with _ | _
        · rw [healthCheckLoop_step_fail o dl n t a0 st rd ht hrs hrd hpy]
          by_cases ht2 : t + (o.latency (a0 + 1) : Int) + HEALTH_CHECK_INTERVAL < dl
          · exact ih _ (a0 + 1) ht2
          · rw [healthCheckLoop_done o dl n _ (a0 + 1) ht2]
            show t + (o.latency (a0 + 1) : Int) + HEALTH_CHECK_INTERVAL < dl + L + 10
            simp only [HEALTH_CHECK_INTERVAL]
            omega
        · rw [healthCheckLoop_step_success o dl n t a0 st rd ht hrs hrd hpy]
          show t + (o.latency (a0 + 1) : Int) < dl + L + 10
          omega

/-! ## Claim theorems: health monitor -/

/-- C2 counterexample: a deploy run where the first polling attempt is made
before the deadline and its rollout-status query returns text containing the
canonical success phrase, yet the verdict is TimedOut (`false`), because the
ready-replicas query of that same attempt raises and the `except` clause at
deploy.py line 177 skips the success test.  This refutes the claim that
Healthy is returned exactly when some rollout-status response before the
deadline contains the phrase. -/
theorem health_check_phrase_ignored_counterexample :
    (health_check oPhraseReadyRaise 0 5).1 = false
    ∧ (health_check oPhraseReadyRaise 0 5).2.2 = 1
    ∧ oPhraseReadyRaise.rolloutStatus 1 =
        some "deployment \"video-processor\" successfully rolled out"
    ∧ pyIn successPhrase "deployment \"video-processor\" successfully rolled out" = true := by
  decide

/-- C2 (amended): the verdict is Healthy exactly when some attempt made before
the deadline both received a rollout-status response containing the canonical
success phrase and completed its ready-replicas query without an exception;
the values of the ready/total replica counts never decide the verdict
(replacing every received ready-replicas response text by anything else leaves
the result unchanged). -/
theorem health_check_success_characterization (o : HCOracle) (s T : Int) (g : Nat → String) :
    (health_check o s T).1 = anyUpTo o (health_check o s T).2.2
    ∧ health_check { o with ready := fun a => (o.ready a).map (fun _ => g a) } s T =
        health_check o s T := by
  have h1 := healthCheckLoop_success_iff o (s + T) T.toNat s 0
  have h2 := anyUpTo_eq_true_iff o (healthCheckLoop o (s + T) T.toNat s 0).2.2
  constructor
  · show (healthCheckLoop o (s + T) T.toNat s 0).1 =
      anyUpTo o (healthCheckLoop o (s + T) T.toNat s 0).2.2
    rcases hb : (healthCheckLoop o (s + T) T.toNat s 0).1 with _ | _
    · rcases hc : anyUpTo o (healthCheckLoop o (s + T) T.toNat s 0).2.2 with _ | _
      · rfl
      · exfalso
        rcases h2.mp hc with ⟨a, ha1, ha2, ha3⟩
        have hT : (healthCheckLoop o (s + T) T.toNat s 0).1 = true := h1.mpr ⟨a, ha1, ha2, ha3⟩
        rw [hb] at hT
        exact absurd hT (by simp)
    · symm
      apply h2.mpr
      rcases h1.mp hb with ⟨a, ha1, ha2, ha3⟩
      exact ⟨a, ha1, ha2, ha3⟩
  · show healthCheckLoop _ (s + T) T.toNat s 0 = healthCheckLoop o (s + T) T.toNat s 0
    exact healthCheckLoop_ready_map o g (s + T) T.toNat s 0

/-- C3: for every timeout value ≤ 0 the health monitor makes zero polling
attempts, consumes no time (so issues no queries and performs no sleeps), and
returns the TimedOut verdict `false` immediately. -/
theorem health_check_nonpositive_timeout (o : HCOracle) (s T : Int) (h : T ≤ 0) :
    health_check o s T = (false, s, 0) := by
  have h0 : T.toNat = 0 := Int.toNat_eq_zero.mpr h
  show healthCheckLoop o (s + T) T.toNat s 0 = (false, s, 0)
  rw [h0]
  simp [healthCheckLoop]

theorem health_check_nonpositive_timeout_witness :
    (0 : Int) ≤ 0 ∧ health_check oNever 3 0 = (false, 3, 0) :=
  ⟨le_refl 0, health_check_nonpositive_timeout oNever 3 0 (le_refl 0)⟩

/-- C7 counterexample: with a positive timeout of 5, instantaneous queries
(zero per-query latency) and a rollout that never reports success, the
monitor returns its verdict at time 10, strictly after the absolute deadline
0 + 5.  This refutes the claim that the loop returns its verdict strictly by
the deadline: the fixed 10-unit sleep after the final attempt always runs
before the deadline is re-checked. -/
theorem health_check_deadline_overshoot_counterexample :
    (health_check oNeverB 0 5).2.1 = 10
    ∧ (0 : Int) + 5 < (health_check oNeverB 0 5).2.1
    ∧ oNeverB.latency 1 = 0 := by
  decide

/-- C7 (amended): with a positive timeout the polling loop sleeps a fixed
10-unit interval after each unsuccessful attempt and never begins an attempt
at or after the deadline; when the query latency of every attempt is at most `L`,
the verdict is returned strictly before `deadline + L + 10`, and a TimedOut
verdict is returned no earlier than the deadline itself — but not, in
general, strictly by the deadline. -/
theorem health_check_termination_bounds (o : HCOracle) (s T L : Int)
    (hT : 0 < T) (hL : ∀ a, (o.latency a : Int) ≤ L) :
    (health_check o s T).2.1 < s + T + L + 10
    ∧ ((health_check o s T).1 = true ∨ s + T ≤ (health_check o s T).2.1) := by
  constructor
  · exact healthCheckLoop_return_lt o (s + T) L hL T.toNat s 0 (by omega)
  · exact healthCheckLoop_timeout_at_deadline o (s + T) T.toNat s 0 (by omega)

theorem health_check_termination_bounds_witness :
    (health_check oNeverB 0 5).2.1 < 0 + 5 + 0 + 10
    ∧ ((health_check oNeverB 0 5).1 = true ∨ (0 : Int) + 5 ≤ (health_check oNeverB 0 5).2.1) :=
  health_check_termination_bounds oNeverB 0 5 0 (by decide) (fun a => by simp [oNeverB])

/-! ## Claim theorems: deploy, rollback and the CLI -/

/-- C1: the code cannot satisfy the claim.  Every CLI deploy invocation — live
or not — raises TypeError at the call from `main` (unexpected keyword argument
`timeout`, deploy.py lines 298-304 versus line 186) before anything happens;
and even a direct live call of `deploy` in which every platform command
succeeds raises NameError at line 234, where the unbound name `timeout` is
evaluated, so the post-update health check is never invoked at all, let alone
with the timeout of the request. -/
theorem deploy_timeout_never_reaches_health_check (w : DeployWorld)
    (environment image_tag : String) (dry_run : Bool) (T : Int)
    (snap : Option String) (o1 o2 ts : String) :
    (mainDeploy w environment image_tag dry_run T).2 =
        .error (.typeError ("deploy() got an unexpected keyword argument: timeout with value "
          ++ toString T))
    ∧ (mainDeploy w environment image_tag dry_run T).1 = []
    ∧ (deploy ⟨"y", snap, some o1, some o2, ts⟩ environment image_tag false).2 =
        .error (.nameError "timeout")
    ∧ (deploy ⟨"y", snap, some o1, some o2, ts⟩ environment image_tag false).1.filter
        isHealthCall = [] := by
  have hy : confirmYes "y" = true := by decide
  refine ⟨?_, ?_, ?_, ?_⟩ <;>
    by_cases he : environment == "production" <;>
      simp [mainDeploy, mainDeployKwargs, deployFnParams, deploy, deployBody, run, he, hy,
        isHealthCall]

/-- C4: a dry-run deploy never mutates the platform: the call returns
normally, every event in its trace is a mere command log (in particular no
command is executed and neither `health_check` nor `rollback` is entered),
and `run` in dry-run mode returns the sentinel without executing anything. -/
theorem dry_run_deploy_no_mutation (w : DeployWorld) (environment image_tag : String)
    (cmd : List String) (liveResult : Option String) :
    (deploy w environment image_tag true).2 = .ok
    ∧ (deploy w environment image_tag true).1.all isCmdLogged = true
    ∧ (deploy w environment image_tag true).1.filter isExecuted = []
    ∧ (deploy w environment image_tag true).1.filter isHealthCall = []
    ∧ (deploy w environment image_tag true).1.filter isRollbackCall = []
    ∧ run liveResult cmd true = ([.cmdLogged cmd], .ok dryRunSentinel) := by
  refine ⟨?_, ?_, ?_, ?_, ?_, ?_⟩ <;>
    simp [deploy, deployBody, run, isCmdLogged, isExecuted, isHealthCall, isRollbackCall]

/-- C5: the code cannot satisfy the claim.  On every live deploy — whatever
the platform and the operator answer — `deploy` never reaches the
auto-rollback call at deploy.py line 236: it exits early (declined
confirmation or a failed command) or raises NameError at line 234 before
`health_check` runs, so the reversion handler is never invoked and the
function never returns normally. -/
theorem live_deploy_never_invokes_rollback (w : DeployWorld)
    (environment image_tag : String) :
    (deploy w environment image_tag false).1.filter isRollbackCall = []
    ∧ (deploy w environment image_tag false).1.filter isHealthCall = []
    ∧ (deploy w environment image_tag false).2.isOk = false := by
  refine ⟨?_, ?_, ?_⟩ <;>
    by_cases he : environment == "production" <;>
      by_cases hy : confirmYes w.confirmAnswer <;>
        rcases h1 : w.setImageResult with _ | r1 <;>
          rcases h2 : w.annotateResult with _ | r2 <;>
            simp [deploy, deployBody, run, he, hy, h1, h2, isRollbackCall, isHealthCall,
              Outcome.isOk]

/-- C6: the code cannot satisfy the claimed exit-code contract.  A dry-run
deploy via the CLI exits with status 1 (uncaught TypeError from the keyword
mismatch), not 0; and a rollback whose undo command fails exits with
status 1 (uncaught CalledProcessError from `check=True`), not 2. -/
theorem exit_codes_diverge (w : DeployWorld) (hc : HCOracle) (s : Int) :
    processExitCode (mainDeploy w "staging" "v1.4.2" true 300).2 = 1
    ∧ processExitCode (mainRollback ⟨none, hc, s⟩ "production" (some 3)).2 = 1 := by
  constructor
  · simp [mainDeploy, mainDeployKwargs, deployFnParams, processExitCode]
  · simp [mainRollback, rollback, run, processExitCode]

/-- C8: a live deploy to production always begins with the confirmation
prompt (so no platform mutation can precede it), and when the confirmation
is declined the call performs nothing else and exits via `sys.exit(0)`. -/
theorem production_confirmation_gate (w : DeployWorld) (image_tag : String) :
    (deploy w "production" image_tag false).1.head? = some Event.confirmPrompt
    ∧ (confirmYes w.confirmAnswer = false →
        deploy w "production" image_tag false = ([Event.confirmPrompt], .exited 0)) := by
  constructor
  · by_cases hy : confirmYes w.confirmAnswer <;> simp [deploy, hy]
  · intro hy
    simp [deploy, hy]

theorem production_confirmation_gate_witness :
    (deploy wDeclined "production" "v1.4.2" false).1.head? = some Event.confirmPrompt
    ∧ deploy wDeclined "production" "v1.4.2" false = ([Event.confirmPrompt], .exited 0) :=
  ⟨(production_confirmation_gate wDeclined "v1.4.2").1,
    (production_confirmation_gate wDeclined "v1.4.2").2 (by decide)⟩

/-- C9: whenever the undo command succeeds, `rollback` invokes the health
monitor exactly once, with the fixed timeout 180, and only declares the
rollback complete (returns normally) when that re-check is healthy,
otherwise exiting with status 2. -/
theorem rollback_recheck_timeout_180 (w : RollbackWorld) (environment : String)
    (revision : Option Int) (out : String) (h : w.undoResult = some out) :
    (rollback w environment revision).1.filter isHealthCall = [Event.healthCheckCall 180]
    ∧ (rollback w environment revision).2 =
        (if (health_check w.hc w.start 180).1 then Outcome.ok else Outcome.exited 2) := by
  constructor <;>
    by_cases hhc : (health_check w.hc w.start 180).1 <;>
      simp [rollback, run, h, hhc, isHealthCall, undoCmd]

theorem rollback_recheck_timeout_180_witness :
    (rollback wRollbackOk "staging" none).1.filter isHealthCall = [Event.healthCheckCall 180]
    ∧ (rollback wRollbackOk "staging" none).2 =
        (if (health_check wRollbackOk.hc wRollbackOk.start 180).1
          then Outcome.ok else Outcome.exited 2) :=
  rollback_recheck_timeout_180 wRollbackOk "staging" none
    "deployment.apps/video-processor rolled back" rfl

/-- C10: a revision argument equal to 0 — whether given explicitly or
obtained by `int("0")` on the auto-rollback conversion of a captured
revision string — is falsy under the `if revision:` guard, so the undo
command is issued without `--to-revision`, exactly as for "previous"; any
nonzero revision yields an explicit `--to-revision` argument. -/
theorem revision_zero_treated_as_previous (r : Int) (h : r ≠ 0) :
    undoCmd (some 0) =
        ["kubectl", "-n", "video-analytics", "rollout", "undo", "deployment/video-processor"]
    ∧ undoCmd none = undoCmd (some 0)
    ∧ autoRollbackRevision (some "0") = some 0
    ∧ undoCmd (some r) =
        ["kubectl", "-n", "video-analytics", "rollout", "undo", "deployment/video-processor",
          "--to-revision=" ++ toString r] := by
  refine ⟨by decide, by decide, by decide, ?_⟩
  have hr : (r != 0) = true := by simpa using h
  simp [undoCmd, hr, kubectl, NAMESPACE]

theorem revision_zero_treated_as_previous_witness :
    undoCmd (some 0) =
        ["kubectl", "-n", "video-analytics", "rollout", "undo", "deployment/video-processor"]
    ∧ undoCmd none = undoCmd (some 0)
    ∧ autoRollbackRevision (some "0") = some 0
    ∧ undoCmd (some 3) =
        ["kubectl", "-n", "video-analytics", "rollout", "undo", "deployment/video-processor",
          "--to-revision=" ++ toString (3 : Int)] :=
  revision_zero_treated_as_previous 3 (by decide)
